import Mathlib

/-!
Verification of the command gatekeeper in `src/tools/tool_shell.py`
(`Tools.run_command`, `_is_blocked`, `_has_warnings`, `Tools._get_timeout`,
`Tools._get_max_output`, `Tools.create_folder`).

The Python code is embedded shallowly: strings are Lean `String`s (lists of
characters), the subprocess call is an oracle parameter (`ProcResult`) giving
the outcome the operating system would produce, and the filesystem queries
made before spawning (`os.path.isdir`, `os.path.expanduser`) are an
environment record (`Env`).  `run_command` returns, besides the formatted
output string, a `spawned` flag recording whether control reached the
`subprocess.run` call; the early-return branches of the source never reach it.
-/

/-- ASCII lower-casing of a single character, as the Python `str.lower`
method acts on the ASCII range (the deny/warn patterns and messages of the
source are all ASCII). -/
def lowerChar (c : Char) : Char :=
  match c with
  | 'A' => 'a' | 'B' => 'b' | 'C' => 'c' | 'D' => 'd' | 'E' => 'e'
  | 'F' => 'f' | 'G' => 'g' | 'H' => 'h' | 'I' => 'i' | 'J' => 'j'
  | 'K' => 'k' | 'L' => 'l' | 'M' => 'm' | 'N' => 'n' | 'O' => 'o'
  | 'P' => 'p' | 'Q' => 'q' | 'R' => 'r' | 'S' => 's' | 'T' => 't'
  | 'U' => 'u' | 'V' => 'v' | 'W' => 'w' | 'X' => 'x' | 'Y' => 'y'
  | 'Z' => 'z'
  | c => c

/-- Python `command.lower()`. -/
def pyLower (s : String) : String :=
  ⟨s.data.map lowerChar⟩

/-- Trimming of leading and trailing whitespace on a character list. -/
def trimList (l : List Char) : List Char :=
  ((l.dropWhile Char.isWhitespace).reverse.dropWhile Char.isWhitespace).reverse

/-- Python `s.strip()` (ASCII whitespace). -/
def pyStrip (s : String) : String :=
  ⟨trimList s.data⟩

/-- Containment of `needle` as a contiguous sublist of `haystack`,
the Python `needle in haystack` test on strings. -/
def listContains : List Char → List Char → Bool
  | [], needle => needle.isPrefixOf []
  | h :: t, needle => needle.isPrefixOf (h :: t) || listContains t needle

/-- Python `needle in haystack` on strings. -/
def strContains (haystack needle : String) : Bool :=
  listContains haystack.data needle.data

/-- Python `s.startswith(pre)`. -/
def pyStartsWith (s pre : String) : Bool :=
  pre.data.isPrefixOf s.data

/-- Python `sep.join(parts)`. -/
def pyJoin (sep : String) : List String → String
  | [] => ""
  | [x] => x
  | x :: y :: t => x ++ sep ++ pyJoin sep (y :: t)

/-- A single-quote character as a string (ASCII 39), used to build the
messages the source writes with quoted fragments. -/
def squo : String :=
  (Char.ofNat 39).toString

/-- The module-level `BLOCKED_COMMANDS` set of `tool_shell.py`; the set is
only ever tested by membership-of-substring, so a list is a faithful model. -/
def BLOCKED_COMMANDS : List String :=
  ["rm -rf /", "rm -rf /*", "del /f /s /q c:\\",
   "format", "mkfs", "dd if=",
   "shutdown", "reboot", "halt", "init 0", "init 6",
   "nmap", "nikto", "sqlmap", "hydra",
   "sudo rm", "sudo dd"]

/-- The module-level `WARN_PATTERNS` list of `tool_shell.py`. -/
def WARN_PATTERNS : List String :=
  ["sudo", "admin", "password", "delete", "remove"]

/-- `_is_blocked(command)` of `tool_shell.py`: lower-case and strip the
command, then test every deny pattern (itself lower-cased) for containment. -/
def is_blocked (command : String) : Bool :=
  let cmd_lower := pyStrip (pyLower command)
  BLOCKED_COMMANDS.any (fun blocked => strContains cmd_lower (pyLower blocked))

/-- `_has_warnings(command)` of `tool_shell.py`: one message per warn
pattern contained in the lower-cased command, in list order. -/
def has_warnings (command : String) : List String :=
  let cmd_lower := pyLower command
  (WARN_PATTERNS.filter (fun pattern => strContains cmd_lower pattern)).map
    (fun pattern => "Command contains " ++ squo ++ pattern ++ squo)

/-- The `Tools.Valves` pydantic model of `tool_shell.py`, with its default
values. -/
structure Valves where
  default_timeout : Int := 30
  max_output_kb : Int := 50
  allow_sudo : Bool := false
  blocked_commands : String := "rm -rf /,format,mkfs,dd if=,shutdown,reboot"
  default_working_dir : String := "/data/user-files"

/-- The valves as constructed by `Tools.__init__` (all defaults). -/
def defaultValves : Valves := {}

/-- `Tools._get_timeout(requested)`: a non-positive request falls back to
the configured default, and the result is clamped into the range 1..120. -/
def get_timeout (v : Valves) (requested : Int) : Int :=
  let dflt := v.default_timeout
  let timeout := if requested > 0 then requested else dflt
  max 1 (min 120 timeout)

/-- `Tools._get_max_output()`: the configured kilobyte ceiling times 1024. -/
def get_max_output (v : Valves) : Int :=
  v.max_output_kb * 1024

/-- Python `s[:n]` (slice from the start), including the negative-stop
behaviour that counts from the end of the string. -/
def pySliceTo (s : String) (n : Int) : String :=
  ⟨s.data.take (if 0 ≤ n then n.toNat else ((s.data.length : Int) + n).toNat)⟩

/-- The outcome of the `subprocess.run` call, supplied as an oracle: a
completed process with captured streams and return code, or one of the
exception classes the source catches around the call. -/
inductive ProcResult where
  | completed (stdout stderr : String) (returncode : Int)
  | timedOut
  | fileNotFound (msg : String)
  | permissionErr
  | otherError (msg : String)
deriving DecidableEq

/-- The filesystem facts `run_command` consults before spawning:
`os.path.expanduser` and `os.path.isdir`. -/
structure Env where
  expandUser : String → String
  isDir : String → Bool

/-- An environment in which no directory exists (and `~` expands to
itself); used for concrete evaluations. -/
def trivialEnv : Env :=
  { expandUser := fun s => s, isDir := fun _ => false }

/-- An environment in which every directory exists. -/
def allDirsEnv : Env :=
  { expandUser := fun s => s, isDir := fun _ => true }

/-- The observable result of one `run_command` call: the returned string
plus whether control reached the `subprocess.run` call. -/
structure RunResult where
  spawned : Bool
  output : String
deriving DecidableEq

/-- The truncation notice appended by `run_command` when the output
exceeds the configured maximum. -/
def truncNotice (maxOut : Int) : String :=
  "\n\n[Output truncated at " ++ toString maxOut ++ " characters]"

/-- The stdout/stderr merge of `run_command`: stderr is appended behind a
separator marker when both streams are non-empty. -/
def mergeOut (stdout stderr : String) : String :=
  let o1 := if stdout ≠ "" then "" ++ stdout else ""
  if stderr ≠ "" then (if o1 ≠ "" then o1 ++ "\n--- stderr ---\n" else o1) ++ stderr
  else o1

/-- The body of the `try` block of `run_command` together with its
`except` arms: formats the oracle outcome into the returned string.
The warning prefix is only applied on the normal-completion path, exactly
as in the source, where the `except` arms return without it. -/
def formatResult (v : Valves) (pr : ProcResult) (warning_msg : String)
    (cmd_timeout : Int) : String :=
  match pr with
  | .completed stdout stderr returncode =>
      let o2 := mergeOut stdout stderr
      let o3 := if pyStrip o2 = "" then "(Command completed with no output)" else o2
      let max_out := get_max_output v
      let o4 := if (o3.data.length : Int) > max_out then
          pySliceTo o3 max_out ++ truncNotice max_out
        else o3
      let o5 := if returncode ≠ 0 then
          o4 ++ "\n\n[Exit code: " ++ toString returncode ++ "]"
        else o4
      warning_msg ++ o5
  | .timedOut => "Error: Command timed out after " ++ toString cmd_timeout ++ " seconds."
  | .fileNotFound e => "Error: Command not found - " ++ e
  | .permissionErr => "Error: Permission denied."
  | .otherError e => "Error executing command: " ++ e

/-- `Tools.run_command(command, working_dir, timeout)` of `tool_shell.py`.
Branches in source order: empty-command guard, deny-list gate, warning
collection, timeout clamp, working-directory resolution, then the spawn
and its outcome formatting. -/
def run_command (v : Valves) (env : Env) (pr : ProcResult)
    (command : String) (working_dir : String) (timeout : Int) : RunResult :=
  if pyStrip command = "" then
    { spawned := false, output := "Error: No command provided." }
  else if is_blocked command then
    { spawned := false, output := "Error: This command is blocked for safety reasons." }
  else
    let warnings := has_warnings command
    let warning_msg :=
      if warnings.isEmpty then ""
      else "[Warning: " ++ pyJoin "; " warnings ++ "]\n\n"
    let cmd_timeout := get_timeout v timeout
    if working_dir = "" then
      { spawned := true, output := formatResult v pr warning_msg cmd_timeout }
    else
      let wd := if pyStartsWith working_dir "~" then env.expandUser working_dir
        else working_dir
      if env.isDir wd then
        { spawned := true, output := formatResult v pr warning_msg cmd_timeout }
      else
        { spawned := false, output := "Error: Working directory not found: " ++ wd }

/-- What `Tools.create_folder` does before/instead of delegating: either an
early error return, or a `run_command` invocation with the built command
string. -/
inductive FolderAction where
  | err (msg : String)
  | run (cmd : String)
deriving DecidableEq

/-- Both edge characters of a character list exist and are not whitespace;
every deny pattern of the source satisfies this, which is what makes the
`strip` in `_is_blocked` harmless for containment. -/
def edgeOk (l : List Char) : Bool :=
  match l.head? with
  | none => false
  | some c =>
    match l.getLast? with
    | none => false
    | some d => !c.isWhitespace && !d.isWhitespace

/-- `Tools.create_folder(folder_path, create_parents)` of `tool_shell.py`,
up to the point where it hands a command string to `run_command`. -/
def create_folder (folder_path : String) (create_parents : Bool) : FolderAction :=
  let folder_path :=
    if pyStartsWith folder_path "/" then folder_path
    else "/data/projects/" ++ folder_path
  if !(pyStartsWith folder_path "/data/user-files"
        || pyStartsWith folder_path "/data/projects") then
    FolderAction.err "Error: Can only create folders in writable areas"
  else
    let flag := if create_parents then "-p" else ""
    FolderAction.run ("mkdir " ++ flag ++ " " ++ squo ++ folder_path ++ squo
      ++ " && echo " ++ squo ++ "Folder created: " ++ folder_path ++ squo)

/-! ## Helper lemmas about the string model -/

lemma isPrefixOf_eq_iff (l₁ l₂ : List Char) : l₁.isPrefixOf l₂ = true ↔ l₁ <+: l₂ :=
  List.isPrefixOf_iff_prefix

lemma listContains_iff (hay needle : List Char) :
    listContains hay needle = true ↔ needle <:+: hay := by
  induction hay with
  | nil =>
      simp only [listContains, isPrefixOf_eq_iff]
      constructor
      · intro h
        exact h.isInfix
      · rintro ⟨s, t, hst⟩
        have h1 := List.append_eq_nil.mp hst
        have h2 := List.append_eq_nil.mp h1.1
        simp [h2.2]
  | cons a t ih =>
      simp only [listContains, Bool.or_eq_true, isPrefixOf_eq_iff, ih]
      constructor
      · rintro (h | h)
        · exact h.isInfix
        · exact List.infix_cons h
      · rintro ⟨s, u, hst⟩
        cases s with
        | nil =>
            left
            exact ⟨u, by simpa using hst⟩
        | cons s0 s1 =>
            right
            simp only [List.cons_append] at hst
            injection hst with h1 h2
            exact ⟨s1, u, h2⟩

lemma strContains_iff (hay needle : String) :
    strContains hay needle = true ↔ needle.data <:+: hay.data :=
  listContains_iff hay.data needle.data

lemma dropWhile_decomp (b : List Char) (c : Char) (tl : List Char)
    (hc : c.isWhitespace = false) :
    ∀ a : List Char, ∃ a2 : List Char,
      (a ++ (c :: tl) ++ b).dropWhile Char.isWhitespace = a2 ++ (c :: tl) ++ b := by
  intro a
  induction a with
  | nil =>
      refine ⟨[], ?_⟩
      simp [List.dropWhile_cons, hc]
  | cons x xs ih =>
      by_cases hx : x.isWhitespace = true
      · obtain ⟨a2, ha2⟩ := ih
        refine ⟨a2, ?_⟩
        simpa [List.dropWhile_cons, hx] using ha2
      · refine ⟨x :: xs, ?_⟩
        simp [List.dropWhile_cons, hx]

lemma edgeOk_spec {l : List Char} (h : edgeOk l = true) :
    (∃ c tl, l = c :: tl ∧ c.isWhitespace = false) ∧
    (∃ d tr, l.reverse = d :: tr ∧ d.isWhitespace = false) := by
  cases hl : l with
  | nil => rw [hl] at h; simp [edgeOk] at h
  | cons a t =>
      rw [hl] at h
      unfold edgeOk at h
      simp only [List.head?] at h
      cases hg : (a :: t).getLast? with
      | none => simp [List.getLast?] at hg
      | some d =>
          rw [hg] at h
          simp only [Bool.and_eq_true, Bool.not_eq_true'] at h
          refine ⟨⟨a, t, rfl, h.1⟩, ?_⟩
          have hrh : (a :: t).reverse.head? = some d := by
            rw [List.head?_reverse]; exact hg
          cases hrev : (a :: t).reverse with
          | nil => rw [hrev] at hrh; simp at hrh
          | cons d0 tr =>
              rw [hrev] at hrh
              simp only [List.head?, Option.some.injEq] at hrh
              subst hrh
              exact ⟨d0, tr, rfl, h.2⟩

lemma needle_in_trim {needle l : List Char} (h : needle <:+: l)
    (he : edgeOk needle = true) : needle <:+: trimList l := by
  obtain ⟨⟨c, tl, hn, hc⟩, ⟨d, tr, hr, hd⟩⟩ := edgeOk_spec he
  subst hn
  obtain ⟨s, t, hst⟩ := h
  rw [trimList, ← hst]
  obtain ⟨a2, ha2⟩ := dropWhile_decomp t c tl hc s
  rw [ha2]
  have hrev1 : (a2 ++ (c :: tl) ++ t).reverse = t.reverse ++ (d :: tr) ++ a2.reverse := by
    rw [List.reverse_append, List.reverse_append, hr, ← List.append_assoc]
  rw [hrev1]
  obtain ⟨b2, hb2⟩ := dropWhile_decomp a2.reverse d tr hd t.reverse
  rw [hb2]
  have hrev2 : (b2 ++ (d :: tr) ++ a2.reverse).reverse
      = a2 ++ (c :: tl) ++ b2.reverse := by
    rw [List.reverse_append, List.reverse_append, List.reverse_reverse, ← hr,
      List.reverse_reverse, ← List.append_assoc]
  rw [hrev2]
  exact ⟨a2, b2.reverse, rfl⟩

lemma lowerChar_of_ws {c : Char} (h : c.isWhitespace = true) : lowerChar c = c := by
  simp only [Char.isWhitespace, Bool.or_eq_true, decide_eq_true_eq] at h
  rcases h with ((h | h) | h) | h <;> subst h <;> decide

lemma allWs_of_trim_nil {l : List Char} (h : trimList l = []) :
    ∀ c ∈ l, c.isWhitespace = true := by
  unfold trimList at h
  have h1 : (l.dropWhile Char.isWhitespace).reverse.dropWhile Char.isWhitespace = [] :=
    List.reverse_eq_nil_iff.mp h
  have h2 := List.dropWhile_eq_nil_iff.mp h1
  have h3 : ∀ c ∈ l.dropWhile Char.isWhitespace, c.isWhitespace = true := by
    intro c hc
    exact h2 c (List.mem_reverse.mpr hc)
  intro c hc
  rw [← List.takeWhile_append_dropWhile Char.isWhitespace l] at hc
  rcases List.mem_append.mp hc with h4 | h4
  · exact List.mem_takeWhile_imp h4
  · exact h3 c h4

lemma strip_ne_empty_of_contains {command p : String}
    (he : edgeOk (pyLower p).data = true)
    (hc : strContains (pyLower command) (pyLower p) = true) :
    ¬ pyStrip command = "" := by
  intro hstrip
  have hall : ∀ c ∈ command.data, c.isWhitespace = true :=
    allWs_of_trim_nil (congrArg String.data hstrip)
  obtain ⟨⟨c, tl, hn, hcws⟩, -⟩ := edgeOk_spec he
  have hinf : (pyLower p).data <:+: (pyLower command).data := (strContains_iff _ _).mp hc
  have hmem : c ∈ (pyLower command).data :=
    hinf.mem (by rw [hn]; exact List.mem_cons_self c tl)
  obtain ⟨c0, hc0mem, hc0⟩ := List.mem_map.mp hmem
  have hws0 := hall c0 hc0mem
  rw [lowerChar_of_ws hws0] at hc0
  subst hc0
  rw [hws0] at hcws
  simp at hcws

lemma is_blocked_eq_true {command p : String} (hp : p ∈ BLOCKED_COMMANDS)
    (he : edgeOk (pyLower p).data = true)
    (hc : strContains (pyLower command) (pyLower p) = true) :
    is_blocked command = true := by
  unfold is_blocked
  refine List.any_eq_true.mpr ⟨p, hp, ?_⟩
  rw [strContains_iff]
  exact needle_in_trim ((strContains_iff _ _).mp hc) he

/-! ## The claims -/

/-- C1: for every command string containing a deny-listed substring (matched
case-insensitively), `run_command` returns the blocked error result and never
spawns a subprocess, whatever the configuration, environment, working
directory, timeout and would-be process outcome are: there is no bypass. -/
theorem claim_C1 (v : Valves) (e : Env) (pr : ProcResult)
    (command working_dir : String) (timeout : Int) (p : String)
    (hp : p ∈ BLOCKED_COMMANDS)
    (hc : strContains (pyLower command) (pyLower p) = true) :
    run_command v e pr command working_dir timeout =
      { spawned := false, output := "Error: This command is blocked for safety reasons." } := by
  have he : edgeOk (pyLower p).data = true := by
    have hall : BLOCKED_COMMANDS.all (fun q => edgeOk (pyLower q).data) = true := by decide
    exact List.all_eq_true.mp hall p hp
  have hne := strip_ne_empty_of_contains he hc
  have hb := is_blocked_eq_true hp he hc
  unfold run_command
  rw [if_neg hne, if_pos hb]

/-- Witness for C1: an upper-cased `NMAP` scan command is refused without a
spawn under the default configuration. -/
theorem claim_C1_witness :
    run_command defaultValves trivialEnv (ProcResult.completed "x" "" 0)
      "NMAP -p 80 host" "" 0 =
      { spawned := false, output := "Error: This command is blocked for safety reasons." } :=
  claim_C1 defaultValves trivialEnv (ProcResult.completed "x" "" 0)
    "NMAP -p 80 host" "" 0 "nmap" (by decide) (by decide)

/-- C2 counterexample: under the default configuration, a requested timeout
of -5 is not clamped to 1; the non-positive request falls back to the
configured default of 30, so the timeout message names 30 seconds. -/
theorem claim_C2_counterexample :
    get_timeout defaultValves (-5) = 30 ∧
    run_command defaultValves trivialEnv ProcResult.timedOut "ls" "" (-5) =
      { spawned := true, output := "Error: Command timed out after 30 seconds." } ∧
    get_timeout defaultValves (-5) ≠ 1 :=
  ⟨by decide, by decide, by decide⟩

/-- C2 amended: the effective timeout is clamped to the range 1..120;
every non-positive request (0 as well as negatives such as -5) is replaced
by the configured default before clamping, and 9999 is clamped to 120. -/
theorem claim_C2_amended (v : Valves) :
    get_timeout v 0 = max 1 (min 120 v.default_timeout) ∧
    get_timeout v 9999 = 120 ∧
    get_timeout v (-5) = get_timeout v 0 ∧
    ∀ req : Int, 1 ≤ get_timeout v req ∧ get_timeout v req ≤ 120 := by
  refine ⟨by norm_num [get_timeout], by norm_num [get_timeout], by norm_num [get_timeout], ?_⟩
  intro req
  unfold get_timeout
  exact ⟨le_max_left 1 _, max_le (by norm_num) (min_le_left _ _)⟩

/-- C9: for every requested timeout and every configured default (also one
outside 1..120), the effective timeout lies in the range 1..120: the
configured default is clamped as well. -/
theorem claim_C9 (v : Valves) (requested : Int) :
    1 ≤ get_timeout v requested ∧ get_timeout v requested ≤ 120 := by
  unfold get_timeout
  exact ⟨le_max_left 1 _, max_le (by norm_num) (min_le_left _ _)⟩

/-- C8: the result of `run_command` (in particular the blocked / warned /
clean classification it acts on) is identical for every value of the
`allow_sudo` valve: the flag is declared but never consulted. -/
theorem claim_C8 (v : Valves) (b : Bool) (e : Env) (pr : ProcResult)
    (command working_dir : String) (timeout : Int) :
    run_command { v with allow_sudo := b } e pr command working_dir timeout =
      run_command v e pr command working_dir timeout := by
  cases v
  rfl

/-- A valve configuration whose `blocked_commands` deny string consists of
the single pattern `curl`. -/
def c3Valves : Valves := { blocked_commands := "curl" }

/-- C3: the `blocked_commands` valve is never consulted — `run_command` is
invariant under any change of it, and a command containing a pattern that is
listed only in the valve (here `curl`) is classified clean and spawns. -/
theorem claim_C3_bug :
    (∀ (v : Valves) (s : String) (e : Env) (pr : ProcResult)
        (command working_dir : String) (timeout : Int),
      run_command { v with blocked_commands := s } e pr command working_dir timeout =
        run_command v e pr command working_dir timeout) ∧
    is_blocked "curl http://example.com" = false ∧
    run_command c3Valves trivialEnv (ProcResult.completed "ok" "" 0)
        "curl http://example.com" "" 0 =
      { spawned := true, output := "ok" } := by
  refine ⟨?_, by decide, by decide⟩
  intro v s e pr command working_dir timeout
  cases v
  rfl

lemma startsWith_slash_of_prefixed (p : String) :
    pyStartsWith ("/data/projects/" ++ p) "/" = true := rfl

lemma startsWith_projects_of_prefixed (p : String) :
    pyStartsWith ("/data/projects/" ++ p) "/data/projects" = true := rfl

lemma startsWith_userfiles_of_prefixed (p : String) :
    pyStartsWith ("/data/projects/" ++ p) "/data/user-files" = false := rfl

/-- C10: `create_folder` first turns a relative path into
`/data/projects/` followed by the path (so the call behaves exactly as on
that absolute path, and always reaches the command build); an absolute path
outside `/data/user-files` and `/data/projects` is refused with an error and
no command is built. -/
theorem claim_C10 (p : String) (b : Bool) :
    (pyStartsWith p "/" = false →
      create_folder p b = create_folder ("/data/projects/" ++ p) b) ∧
    (pyStartsWith p "/" = false →
      ∃ c : String, create_folder p b = FolderAction.run c) ∧
    (pyStartsWith p "/" = true → pyStartsWith p "/data/user-files" = false →
      pyStartsWith p "/data/projects" = false →
      create_folder p b = FolderAction.err "Error: Can only create folders in writable areas") := by
  refine ⟨?_, ?_, ?_⟩
  · intro hrel
    unfold create_folder
    rw [hrel, startsWith_slash_of_prefixed]
    simp
  · intro hrel
    unfold create_folder
    rw [hrel]
    simp only [Bool.false_eq_true, if_false, startsWith_projects_of_prefixed,
      startsWith_userfiles_of_prefixed, Bool.false_or, Bool.not_true,
      Bool.true_eq_false, Bool.or_true]
    exact ⟨_, rfl⟩
  · intro habs h1 h2
    unfold create_folder
    rw [habs]
    simp [h1, h2]

/-- Witness for C10: a path under `/etc` is refused. -/
theorem claim_C10_witness :
    create_folder "/etc/x" true =
      FolderAction.err "Error: Can only create folders in writable areas" :=
  (claim_C10 "/etc/x" true).2.2 (by decide) (by decide) (by decide)

lemma strAppend_assoc (a b c : String) : (a ++ b) ++ c = a ++ (b ++ c) := by
  show String.mk ((a ++ b).data ++ c.data) = String.mk (a.data ++ (b ++ c).data)
  rw [show (a ++ b).data = a.data ++ b.data from rfl,
    show (b ++ c).data = b.data ++ c.data from rfl, List.append_assoc]

/-- C7: with a non-empty, non-blocked command, a supplied working directory
that does not resolve to an existing directory yields the distinct
working-directory error without a spawn; and a spawned process that
completes with a non-zero exit code is reported as normal output carrying
the literal exit-code marker, not as an error return. -/
theorem claim_C7 (v : Valves) (e : Env) (pr : ProcResult)
    (command working_dir : String) (timeout : Int)
    (hs : ¬ pyStrip command = "") (hb : is_blocked command = false) :
    (working_dir ≠ "" →
      e.isDir (if pyStartsWith working_dir "~" = true then e.expandUser working_dir
        else working_dir) = false →
      run_command v e pr command working_dir timeout =
        { spawned := false,
          output := "Error: Working directory not found: "
            ++ (if pyStartsWith working_dir "~" = true then e.expandUser working_dir
              else working_dir) }) ∧
    (∀ (s e2 : String) (n : Int), pr = ProcResult.completed s e2 n → n ≠ 0 →
      working_dir = "" →
      (run_command v e pr command working_dir timeout).spawned = true ∧
      ∃ pre : String, (run_command v e pr command working_dir timeout).output =
        pre ++ "\n\n[Exit code: " ++ toString n ++ "]") := by
  constructor
  · intro hw hd
    simp [run_command, hs, hb, hw, hd]
  · rintro s e2 n rfl hn rfl
    refine ⟨by simp [run_command, hs, hb], ?_⟩
    simp only [run_command, hs, hb, Bool.false_eq_true, if_false, if_neg hs]
    simp only [if_pos rfl, formatResult, hn, if_true]
    refine ⟨(if (has_warnings command).isEmpty then ""
        else "[Warning: " ++ pyJoin "; " (has_warnings command) ++ "]\n\n")
      ++ (if ((if pyStrip (mergeOut s e2) = "" then "(Command completed with no output)"
              else mergeOut s e2).data.length : Int) > get_max_output v then
          pySliceTo (if pyStrip (mergeOut s e2) = "" then "(Command completed with no output)"
              else mergeOut s e2) (get_max_output v) ++ truncNotice (get_max_output v)
        else (if pyStrip (mergeOut s e2) = "" then "(Command completed with no output)"
              else mergeOut s e2)), ?_⟩
    rw [if_pos hn]
    simp [strAppend_assoc]

/-- Witness for C7: a missing working directory is refused without a spawn,
and exit code 7 is reported inside the output as a marker. -/
theorem claim_C7_witness :
    run_command defaultValves trivialEnv ProcResult.timedOut "echo hi"
        "/definitely/not/real" 0 =
      { spawned := false,
        output := "Error: Working directory not found: /definitely/not/real" } ∧
    (run_command defaultValves trivialEnv (ProcResult.completed "x" "" 7)
        "echo hi" "" 0).spawned = true ∧
    ∃ pre : String,
      (run_command defaultValves trivialEnv (ProcResult.completed "x" "" 7)
        "echo hi" "" 0).output = pre ++ "\n\n[Exit code: " ++ toString (7 : Int) ++ "]" := by
  refine ⟨?_, ?_, ?_⟩
  · exact (claim_C7 defaultValves trivialEnv ProcResult.timedOut "echo hi"
      "/definitely/not/real" 0 (by decide) (by decide)).1 (by decide) rfl
  · exact ((claim_C7 defaultValves trivialEnv (ProcResult.completed "x" "" 7) "echo hi" "" 0
      (by decide) (by decide)).2 "x" "" 7 rfl (by decide) rfl).1
  · exact ((claim_C7 defaultValves trivialEnv (ProcResult.completed "x" "" 7) "echo hi" "" 0
      (by decide) (by decide)).2 "x" "" 7 rfl (by decide) rfl).2

lemma pyStartsWith_append (a b : String) : pyStartsWith (a ++ b) a = true := by
  unfold pyStartsWith
  rw [show (a ++ b).data = a.data ++ b.data from rfl]
  exact (isPrefixOf_eq_iff _ _).mpr (List.prefix_append a.data b.data)

/-- C5 counterexample: `sudo ls` matches the warn list, yet on the timeout
outcome the returned text is the bare timeout error with no warning prefix:
the warning text is not prepended on every outcome of the execution. -/
theorem claim_C5_counterexample :
    has_warnings "sudo ls" ≠ [] ∧
    run_command defaultValves trivialEnv ProcResult.timedOut "sudo ls" "" 0 =
      { spawned := true, output := "Error: Command timed out after 30 seconds." } ∧
    strContains (run_command defaultValves trivialEnv ProcResult.timedOut
      "sudo ls" "" 0).output "[Warning: " = false :=
  ⟨by decide, by decide, by decide⟩

/-- C5 amended: a non-blocked, non-empty command matching the warn list
still spawns (with no working directory supplied), and the aggregated
warning text is prepended to the output whenever the process completes;
on the exception outcomes (timeout, launch failure) the error string is
returned without the warning prefix. -/
theorem claim_C5_amended (v : Valves) (e : Env) (pr : ProcResult)
    (command : String) (timeout : Int)
    (hs : ¬ pyStrip command = "") (hb : is_blocked command = false)
    (hw : has_warnings command ≠ []) :
    (run_command v e pr command "" timeout).spawned = true ∧
    (∀ (s e2 : String) (n : Int), pr = ProcResult.completed s e2 n →
      pyStartsWith (run_command v e pr command "" timeout).output
        ("[Warning: " ++ pyJoin "; " (has_warnings command) ++ "]\n\n") = true) := by
  have hwe : (has_warnings command).isEmpty = false := by
    cases h : has_warnings command with
    | nil => exact absurd h hw
    | cons a t => rfl
  constructor
  · simp [run_command, hs, hb]
  · rintro s e2 n rfl
    simp only [run_command, hs, hb, hwe, Bool.false_eq_true, if_false, if_pos rfl,
      formatResult]
    exact pyStartsWith_append _ _

/-- Witness for C5 amended: `sudo ls` spawns and its completed output
carries the aggregated warning prefix. -/
theorem claim_C5_amended_witness :
    (run_command defaultValves trivialEnv (ProcResult.completed "hi" "" 0)
      "sudo ls" "" 0).spawned = true ∧
    pyStartsWith (run_command defaultValves trivialEnv (ProcResult.completed "hi" "" 0)
        "sudo ls" "" 0).output
      ("[Warning: " ++ pyJoin "; " (has_warnings "sudo ls") ++ "]\n\n") = true := by
  refine ⟨(claim_C5_amended defaultValves trivialEnv (ProcResult.completed "hi" "" 0)
    "sudo ls" 0 (by decide) (by decide) (by decide)).1, ?_⟩
  exact (claim_C5_amended defaultValves trivialEnv (ProcResult.completed "hi" "" 0)
    "sudo ls" 0 (by decide) (by decide) (by decide)).2 "hi" "" 0 rfl

lemma pyStartsWith_append_left {a p : String} (h : pyStartsWith a p = true)
    (b : String) : pyStartsWith (a ++ b) p = true := by
  unfold pyStartsWith at h ⊢
  rw [show (a ++ b).data = a.data ++ b.data from rfl]
  exact (isPrefixOf_eq_iff _ _).mpr
    (((isPrefixOf_eq_iff _ _).mp h).trans (List.prefix_append _ _))

lemma fmt_timedOut_errPrefix (v : Valves) (wm : String) (ct : Int) :
    pyStartsWith (formatResult v ProcResult.timedOut wm ct) "Error: " = true := by
  unfold formatResult
  exact pyStartsWith_append_left (pyStartsWith_append_left (by decide) (toString ct)) " seconds."

lemma fmt_fileNotFound_errPrefix (v : Valves) (wm : String) (ct : Int) (m : String) :
    pyStartsWith (formatResult v (ProcResult.fileNotFound m) wm ct) "Error: " = true := by
  unfold formatResult
  exact pyStartsWith_append_left (by decide) m

lemma fmt_permission_errPrefix (v : Valves) (wm : String) (ct : Int) :
    pyStartsWith (formatResult v ProcResult.permissionErr wm ct) "Error: " = true := by
  show pyStartsWith "Error: Permission denied." "Error: " = true
  decide

lemma fmt_otherError_prefixes (v : Valves) (wm : String) (ct : Int) (m : String) :
    pyStartsWith (formatResult v (ProcResult.otherError m) wm ct) "Error executing command: " = true ∧
    pyStartsWith (formatResult v (ProcResult.otherError m) wm ct) "Error" = true := by
  unfold formatResult
  exact ⟨pyStartsWith_append "Error executing command: " m,
    pyStartsWith_append_left (by decide) m⟩

/-- C6 counterexample: on the generic exception branch the returned string
begins `Error executing command:`, which is not prefixed by the literal
`Error:` the claim requires of every failure outcome. -/
theorem claim_C6_counterexample :
    (run_command defaultValves trivialEnv (ProcResult.otherError "boom")
      "ls" "" 0).output = "Error executing command: boom" ∧
    pyStartsWith (run_command defaultValves trivialEnv (ProcResult.otherError "boom")
      "ls" "" 0).output "Error:" = false :=
  ⟨by decide, by decide⟩

lemma run_command_spawn (v : Valves) (e : Env) (pr : ProcResult)
    (command working_dir : String) (timeout : Int)
    (h1 : ¬ pyStrip command = "") (h2 : is_blocked command = false)
    (h3 : working_dir = "" ∨ e.isDir (if pyStartsWith working_dir "~" = true
        then e.expandUser working_dir else working_dir) = true) :
    run_command v e pr command working_dir timeout =
      { spawned := true,
        output := formatResult v pr
          (if (has_warnings command).isEmpty then ""
            else "[Warning: " ++ pyJoin "; " (has_warnings command) ++ "]\n\n")
          (get_timeout v timeout) } := by
  unfold run_command
  rw [if_neg h1, if_neg (by simp [h2])]
  dsimp only
  rcases h3 with rfl | hdir
  · rw [if_pos rfl]
  · by_cases hwd : working_dir = ""
    · rw [if_pos hwd]
    · rw [if_neg hwd, if_pos hdir]

/-- C6 amended: every failure outcome of `run_command` is returned as a
descriptive string beginning with `Error` — with the exact prefix
`Error: ` for the empty-command, blocked, missing-working-directory,
timeout, missing-interpreter and permission-denied outcomes, but with the
prefix `Error executing command: ` (no colon after `Error`) for the generic
exception branch — and the embedding is a total function over the modelled
outcome taxonomy, so no exception reaches the host. -/
theorem claim_C6_amended (v : Valves) (e : Env) (pr : ProcResult)
    (command working_dir : String) (timeout : Int) :
    ((run_command v e pr command working_dir timeout).spawned = false →
      pyStartsWith (run_command v e pr command working_dir timeout).output
        "Error: " = true) ∧
    (pr = ProcResult.timedOut →
      (run_command v e pr command working_dir timeout).spawned = true →
      pyStartsWith (run_command v e pr command working_dir timeout).output
        "Error: " = true) ∧
    (∀ m, pr = ProcResult.fileNotFound m →
      (run_command v e pr command working_dir timeout).spawned = true →
      pyStartsWith (run_command v e pr command working_dir timeout).output
        "Error: " = true) ∧
    (pr = ProcResult.permissionErr →
      (run_command v e pr command working_dir timeout).spawned = true →
      pyStartsWith (run_command v e pr command working_dir timeout).output
        "Error: " = true) ∧
    (∀ m, pr = ProcResult.otherError m →
      (run_command v e pr command working_dir timeout).spawned = true →
      pyStartsWith (run_command v e pr command working_dir timeout).output
        "Error executing command: " = true ∧
      pyStartsWith (run_command v e pr command working_dir timeout).output
        "Error" = true) := by
  by_cases h1 : pyStrip command = ""
  · have hr : run_command v e pr command working_dir timeout =
        { spawned := false, output := "Error: No command provided." } := by
      simp [run_command, h1]
    rw [hr]
    exact ⟨fun _ => by decide, fun _ h => by simp at h, fun m _ h => by simp at h,
      fun _ h => by simp at h, fun m _ h => by simp at h⟩
  by_cases h2 : is_blocked command = true
  · have hr : run_command v e pr command working_dir timeout =
        { spawned := false,
          output := "Error: This command is blocked for safety reasons." } := by
      simp [run_command, h1, h2]
    rw [hr]
    exact ⟨fun _ => by decide, fun _ h => by simp at h, fun m _ h => by simp at h,
      fun _ h => by simp at h, fun m _ h => by simp at h⟩
  have h2f : is_blocked command = false := by
    cases h : is_blocked command
    · rfl
    · exact absurd h h2
  by_cases h3 : working_dir = ""
  · rw [run_command_spawn v e pr command working_dir timeout h1 h2f (Or.inl h3)]
    refine ⟨fun h => by simp at h, ?_, ?_, ?_, ?_⟩
    · rintro rfl -
      dsimp only
      exact fmt_timedOut_errPrefix _ _ _
    · rintro m rfl -
      dsimp only
      exact fmt_fileNotFound_errPrefix _ _ _ _
    · rintro rfl -
      dsimp only
      exact fmt_permission_errPrefix _ _ _
    · rintro m rfl -
      dsimp only
      exact fmt_otherError_prefixes _ _ _ _
  by_cases h4 : e.isDir (if pyStartsWith working_dir "~" = true
      then e.expandUser working_dir else working_dir) = true
  · rw [run_command_spawn v e pr command working_dir timeout h1 h2f (Or.inr h4)]
    refine ⟨fun h => by simp at h, ?_, ?_, ?_, ?_⟩
    · rintro rfl -
      dsimp only
      exact fmt_timedOut_errPrefix _ _ _
    · rintro m rfl -
      dsimp only
      exact fmt_fileNotFound_errPrefix _ _ _ _
    · rintro rfl -
      dsimp only
      exact fmt_permission_errPrefix _ _ _
    · rintro m rfl -
      dsimp only
      exact fmt_otherError_prefixes _ _ _ _
  · have h4f : e.isDir (if pyStartsWith working_dir "~" = true
        then e.expandUser working_dir else working_dir) = false := by
      cases h : e.isDir (if pyStartsWith working_dir "~" = true
          then e.expandUser working_dir else working_dir)
      · rfl
      · exact absurd h h4
    have hr : run_command v e pr command working_dir timeout =
        { spawned := false,
          output := "Error: Working directory not found: "
            ++ (if pyStartsWith working_dir "~" = true then e.expandUser working_dir
              else working_dir) } := by
      simp [run_command, h1, h2, h3, h4f]
    rw [hr]
    exact ⟨fun _ => pyStartsWith_append_left (by decide) _,
      fun _ h => by simp at h, fun m _ h => by simp at h,
      fun _ h => by simp at h, fun m _ h => by simp at h⟩

/-- Witness for C6 amended: the timeout outcome carries the `Error: `
prefix. -/
theorem claim_C6_amended_witness :
    pyStartsWith (run_command defaultValves trivialEnv ProcResult.timedOut
      "ls" "" 0).output "Error: " = true :=
  (claim_C6_amended defaultValves trivialEnv ProcResult.timedOut "ls" "" 0).2.1
    rfl (by decide)

lemma strEmpty_append (x : String) : "" ++ x = x := by
  cases x
  rfl

/-- A valve configuration with a 1 KB output ceiling. -/
def c4Valves : Valves := { max_output_kb := 1 }

/-- A 1025-character output, one character beyond the 1 KB ceiling. -/
def bigOut : String := ⟨List.replicate 1025 'a'⟩

set_option maxRecDepth 100000 in
/-- C4 counterexample: with a 1 KB ceiling, a warn-matching command whose
output exceeds the ceiling returns a string whose length is the warning
prefix plus 1024 plus the notice — not the configured maximum plus the
notice alone, as the claim states for every command. -/
theorem claim_C4_counterexample :
    (run_command c4Valves trivialEnv (ProcResult.completed bigOut "" 0)
        "sudo cat f" "" 0).output.data.length ≠
      (get_max_output c4Valves).toNat
        + (truncNotice (get_max_output c4Valves)).data.length := by decide

/-- C4 amended: for a non-empty, non-blocked command with no warn matches
(and no working directory supplied) whose process completes with exit code
0 and whose merged, non-blank output exceeds the configured positive
ceiling, the returned string is the truncated output followed by the
notice naming the exact applied limit, and its length is the configured
maximum plus the length of the notice.  Warn matches and non-zero exit
codes add their own prefix and marker on top (see the counterexample). -/
theorem claim_C4_amended (v : Valves) (e : Env) (command : String) (timeout : Int)
    (s e2 : String)
    (hs : ¬ pyStrip command = "") (hb : is_blocked command = false)
    (hw : has_warnings command = [])
    (hnb : ¬ pyStrip (mergeOut s e2) = "")
    (hmax : 0 ≤ get_max_output v)
    (hlen : ((mergeOut s e2).data.length : Int) > get_max_output v) :
    (run_command v e (ProcResult.completed s e2 0) command "" timeout).output =
      pySliceTo (mergeOut s e2) (get_max_output v) ++ truncNotice (get_max_output v) ∧
    (run_command v e (ProcResult.completed s e2 0) command "" timeout).output.data.length =
      (get_max_output v).toNat + (truncNotice (get_max_output v)).data.length := by
  have key : (run_command v e (ProcResult.completed s e2 0) command "" timeout).output =
      pySliceTo (mergeOut s e2) (get_max_output v) ++ truncNotice (get_max_output v) := by
    rw [run_command_spawn v e (ProcResult.completed s e2 0) command "" timeout hs hb
      (Or.inl rfl)]
    dsimp only
    rw [hw]
    unfold formatResult
    dsimp only
    rw [if_pos (show (List.isEmpty ([] : List String)) = true from rfl)]
    rw [if_neg hnb]
    rw [if_pos hlen]
    rw [if_neg (show ¬ ((0 : Int) ≠ 0) from by decide)]
    exact strEmpty_append _
  refine ⟨key, ?_⟩
  rw [key]
  rw [show (pySliceTo (mergeOut s e2) (get_max_output v)
      ++ truncNotice (get_max_output v)).data
    = (pySliceTo (mergeOut s e2) (get_max_output v)).data
      ++ (truncNotice (get_max_output v)).data from rfl]
  rw [List.length_append]
  unfold pySliceTo
  rw [if_pos hmax]
  dsimp only
  rw [List.length_take]
  omega

set_option maxRecDepth 100000 in
/-- Witness for C4 amended: a clean command with a 1025-character output
under a 1 KB ceiling returns exactly 1024 characters plus the notice. -/
theorem claim_C4_amended_witness :
    (run_command c4Valves trivialEnv (ProcResult.completed bigOut "" 0)
        "cat f" "" 0).output.data.length =
      (get_max_output c4Valves).toNat
        + (truncNotice (get_max_output c4Valves)).data.length :=
  (claim_C4_amended c4Valves trivialEnv "cat f" 0 bigOut ""
    (by decide) (by decide) (by decide) (by decide) (by decide) (by decide)).2
